import Mathlib

/-!
Shallow embedding of `src/utils/contractUtils.ts` (the mintBot repository's
single source file) and proofs about its three exported functions:
`validateNFTContract`, `getNFTContractInfo` and `detectMintFunction`.

Modelling conventions:
- Every remote (provider/contract) call is represented by its outcome, an
  `Except String _` value stored in an environment record: `Except.error`
  models a rejected promise (or the 10-second timeout firing), `Except.ok`
  models a fulfilled promise.  Quantifying over the environment quantifies
  over all provider behaviours at the given address.
- JavaScript `try { .. } catch { .. }` is transcribed as a `match` on the
  `Except` value produced by the guarded block.
- `validateNFTContract` additionally returns the ordered list of provider
  calls it issued, so that the "no network call is made" parts of the spec
  are statable.
-/

deriving instance DecidableEq for Except

namespace ContractUtils

/-- The result type of `validateNFTContract`: `{ valid: boolean; reason?: string }`. -/
structure ValidationResult where
  valid : Bool
  reason : Option String
deriving Repr, DecidableEq

/-- The result type of `getNFTContractInfo`:
`{ name?: string; symbol?: string; totalSupply?: bigint }` (bigint as `Int`). -/
structure ContractInfo where
  name : Option String
  symbol : Option String
  totalSupply : Option Int
deriving Repr, DecidableEq

/-- The provider calls `validateNFTContract` can issue, in source order:
the raced `provider.getCode`, the two `supportsInterface` probes
(interface ids 0x80ac58cd and 0xd9b67a26), the two fallback reads
`balanceOf` / `ownerOf`, and the second, un-raced `provider.getCode`. -/
inductive PCall where
  | getCode
  | supportsERC721
  | supportsERC1155
  | balanceOf
  | ownerOf
  | getCodeAgain
deriving Repr, DecidableEq

/-- Environment for `validateNFTContract`: the pure address-format check
`ethers.isAddress`, and the outcome of each remote call the function can
make at this address.  `getCodeRaced` is the outcome of
`Promise.race([provider.getCode(..), 10s timeout])`; a timeout is an
`Except.error` like any rejection.  `getCodeAgain` is the second, separate
`provider.getCode` call of the bytecode text scan (a distinct network call
that may have a different outcome). -/
structure ValidateEnv where
  isAddress : String → Bool
  getCodeRaced : Except String String
  supportsERC721 : Except String Bool
  supportsERC1155 : Except String Bool
  balanceOf : Except String Int
  ownerOf : Except String String
  getCodeAgain : Except String String

/-- Transcribes `p.catch(() => false)`: a fulfilled boolean is kept, a
rejection becomes `false`. -/
def catchFalse (x : Except String Bool) : Bool :=
  match x with
  | .ok b => b
  | .error _ => false

/-- Transcribes `p.then(() => true).catch(() => false)`: `true` exactly when
the call succeeded, whatever value it returned. -/
def thenTrueCatchFalse {α : Type} (x : Except String α) : Bool :=
  match x with
  | .ok _ => true
  | .error _ => false

/-- Does the character list contain `pat` as a contiguous sublist starting
at some position? -/
def includesAux (pat : List Char) : List Char → Bool
  | [] => pat.isEmpty
  | c :: cs => pat.isPrefixOf (c :: cs) || includesAux pat cs

/-- JavaScript `s.includes(pat)`: substring containment test. -/
def includesSub (s pat : String) : Bool :=
  includesAux pat.data s.data

/-- Steps 3-5 of `validateNFTContract` (the body of the inner
`try { .. } catch (error) { return { valid: true } }` block, lines 46-86):
the two `supportsInterface` probes (each guarded by its own
`.catch(() => false)`), the two fallback reads (each guarded by
`.then(() => true).catch(() => false)`), and finally the bytecode text scan,
whose `provider.getCode` call is NOT locally guarded, so its rejection is
the one exception this block can raise.  Both probes are awaited before the
first test, and both fallback reads before the second, exactly as in the
source. -/
def validateSteps345 (env : ValidateEnv) (t : List PCall) :
    Except String ValidationResult × List PCall :=
  let isERC721 := catchFalse env.supportsERC721
  let isERC1155 := catchFalse env.supportsERC1155
  let t2 := t ++ [PCall.supportsERC721, PCall.supportsERC1155]
  if isERC721 || isERC1155 then
    (Except.ok ⟨true, none⟩, t2)
  else
    let hasBalanceOf := thenTrueCatchFalse env.balanceOf
    let hasOwnerOf := thenTrueCatchFalse env.ownerOf
    let t3 := t2 ++ [PCall.balanceOf, PCall.ownerOf]
    if hasBalanceOf || hasOwnerOf then
      (Except.ok ⟨true, none⟩, t3)
    else
      let t4 := t3 ++ [PCall.getCodeAgain]
      match env.getCodeAgain with
      | .error e => (Except.error e, t4)
      | .ok bytecode =>
        if includesSub bytecode "Transfer(" || includesSub bytecode "5RANSFERE" then
          (Except.ok ⟨true, some "Contract appears to implement transfer events"⟩, t4)
        else
          (Except.ok ⟨false, some "Contract does not appear to be an ERC721 or ERC1155 NFT"⟩, t4)

/-- The body of `validateNFTContract`'s outer `try` (lines 10-86):
the format check `!contractAddress || !ethers.isAddress(contractAddress)`,
the inner try/catch around the raced `getCode` (lines 16-30), then the
steps 3-5 block with its own catch-all returning `{ valid: true }`. -/
def validateBody (addr : String) (env : ValidateEnv) :
    Except String ValidationResult × List PCall :=
  if addr = "" ∨ env.isAddress addr = false then
    (Except.ok ⟨false, some "Invalid Ethereum address format"⟩, [])
  else
    match env.getCodeRaced with
    | .error _ =>
        (Except.ok ⟨false, some "Failed to verify contract deployment - network issues"⟩,
          [PCall.getCode])
    | .ok code =>
      if code = "0x" then
        (Except.ok ⟨false, some "Contract not deployed at this address"⟩, [PCall.getCode])
      else
        match validateSteps345 env [PCall.getCode] with
        | (.error _, t) => (Except.ok ⟨true, none⟩, t)
        | (.ok r, t) => (Except.ok r, t)

/-- `validateNFTContract` (lines 6-94): the body wrapped in the outer
`catch (error) { return { valid: false, reason: Validation error: .. } }`. -/
def validateNFTContract (addr : String) (env : ValidateEnv) :
    Except String ValidationResult × List PCall :=
  match validateBody addr env with
  | (.error e, t) => (Except.ok ⟨false, some ("Validation error: " ++ e)⟩, t)
  | (.ok r, t) => (Except.ok r, t)

/-- Environment for `getNFTContractInfo`: the outcome of the contract-binding
step (`new ethers.Contract(contractAddress, abi, provider)` — per the spec it
can throw, e.g. when the connection cannot bind to the address) and the
outcomes of the three independent read calls `name()`, `symbol()` and
`totalSupply()` issued through `Promise.allSettled`. -/
structure InfoEnv where
  bindContract : Except String Unit
  nameCall : Except String String
  symbolCall : Except String String
  totalSupplyCall : Except String Int

/-- How `Promise.allSettled` plus the
`result.status === 'fulfilled' ? result.value : undefined` extraction of
lines 120-124 turns one call's outcome into one optional field. -/
def settleValue {α : Type} (x : Except String α) : Option α :=
  match x with
  | .ok v => some v
  | .error _ => none

/-- `getNFTContractInfo` (lines 99-131): bind the contract, issue the three
reads via `Promise.allSettled`, extract each field independently; the outer
`catch` returns the empty record `{}` (all fields `undefined`). -/
def getNFTContractInfo (env : InfoEnv) : Except String ContractInfo :=
  match env.bindContract with
  | .error _ => Except.ok ⟨none, none, none⟩
  | .ok _ =>
      Except.ok
        ⟨settleValue env.nameCall, settleValue env.symbolCall,
          settleValue env.totalSupplyCall⟩

/-- Environment for `detectMintFunction`: the only fallible step in its loop
is the contract-binding constructor `new ethers.Contract(contractAddress,
[func], provider)` (the same address each iteration, so one outcome); the
spec's "or the whole loop throws" refers to it.  Crucially, the loop makes
NO remote call: the `getFunction` lookup is local. -/
structure DetectEnv where
  bindContract : Except String Unit

/-- The fixed ordered candidate list of lines 141-148, verbatim. -/
def mintFunctions : List String :=
  ["function mint(uint256)",
   "function mint(address,uint256)",
   "function publicMint(uint256)",
   "function publicMint(address,uint256)",
   "function mintPublic(uint256)",
   "function mintPublic(address,uint256)"]

/-- JavaScript `s.replace(pat, repl)` with a string pattern: replaces only
the FIRST occurrence of `pat` (unlike Lean's `String.replace`, which
replaces all of them). -/
def replaceFirst (pat repl : List Char) : List Char → List Char
  | [] => []
  | c :: cs =>
    if pat.isPrefixOf (c :: cs) then repl ++ (c :: cs).drop pat.length
    else c :: replaceFirst pat repl cs

/-- `func.split('(')[0].replace('function ', '')` (line 152): the text
before the first opening parenthesis (which is what indexing the split at 0
yields), with the first occurrence of the text `function ` removed. -/
def parseFunctionName (func : String) : String :=
  let beforeParen := func.data.takeWhile (fun c => c ≠ '(')
  String.mk (replaceFirst "function ".data [] beforeParen)

/-- Models `ethers.Interface.getFunction(key)` on the interface built from
the human-readable ABI `abi`: look the key up among the fragments the ABI
itself declares (a local lookup — the on-chain contract is never consulted).
ethers raises (or yields nothing) when no fragment matches and raises an
ambiguity error when several do; a fragment parsed from
`function name(args)` is named `name`, which `parseFunctionName` computes. -/
def interfaceGetFunction (abi : List String) (key : String) : Except String String :=
  match abi.filter (fun sig => parseFunctionName sig = key) with
  | [] => Except.error "no matching function"
  | [sig] => Except.ok sig
  | _ => Except.error "multiple matching functions"

/-- The `for (const func of mintFunctions)` loop of lines 151-171: derive the
candidate's name, bind a single-function contract (its constructor outcome is
`env.bindContract`; a throw propagates to the outer catch), then the inner
try: `contract.interface.getFunction(functionName)` — built from `[func]`
alone — returning `func` on a match and continuing with the next candidate
otherwise. -/
def detectLoop (env : DetectEnv) : List String → Except String (Option String)
  | [] => Except.ok none
  | func :: rest =>
    let functionName := parseFunctionName func
    match env.bindContract with
    | .error e => Except.error e
    | .ok _ =>
      match interfaceGetFunction [func] functionName with
      | .ok _ => Except.ok (some func)
      | .error _ => detectLoop env rest

/-- `detectMintFunction` (lines 136-176): the loop wrapped in the outer
`catch (error) { return null }`. -/
def detectMintFunction (env : DetectEnv) : Except String (Option String) :=
  match detectLoop env mintFunctions with
  | .error _ => Except.ok none
  | .ok r => Except.ok r

/-! Concrete environments used by witnesses and counterexamples. -/

/-- A syntactically valid, deployed contract address whose contract exposes
none of the six candidate mint signatures: note that the contract's actual
ABI does not occur anywhere in `detectMintFunction`'s computation — only the
binding outcome does. -/
def anyDeployedContractEnv : DetectEnv := ⟨Except.ok ()⟩

/-- An address for which the `new ethers.Contract` binding constructor
throws (the case the source's outer catch and the spec's "or the whole loop
throws" refer to). -/
def throwingBindEnv : DetectEnv := ⟨Except.error "unsupported addressable value"⟩

/-- A provider for a malformed address: the format check fails, every
remote-call field is irrelevant (and would fail if consulted). -/
def malformedEnv : ValidateEnv :=
  { isAddress := fun _ => false
    getCodeRaced := Except.error "never called"
    supportsERC721 := Except.error "never called"
    supportsERC1155 := Except.error "never called"
    balanceOf := Except.error "never called"
    ownerOf := Except.error "never called"
    getCodeAgain := Except.error "never called" }

/-- A well-formed address with empty deployed bytecode. -/
def notDeployedEnv : ValidateEnv :=
  { isAddress := fun _ => true
    getCodeRaced := Except.ok "0x"
    supportsERC721 := Except.error "never called"
    supportsERC1155 := Except.error "never called"
    balanceOf := Except.error "never called"
    ownerOf := Except.error "never called"
    getCodeAgain := Except.error "never called" }

/-- A deployed contract answering `true` to the ERC721 probe while the
ERC1155 probe itself fails (failed probe treated as not-supported). -/
def probeTrueEnv : ValidateEnv :=
  { isAddress := fun _ => true
    getCodeRaced := Except.ok "0x608060"
    supportsERC721 := Except.ok true
    supportsERC1155 := Except.error "call reverted"
    balanceOf := Except.error "never reached"
    ownerOf := Except.error "never reached"
    getCodeAgain := Except.error "never reached" }

/-- A deployed contract supporting neither probe (one answers `false`, the
other fails) whose `balanceOf` fallback call succeeds. -/
def fallbackEnv : ValidateEnv :=
  { isAddress := fun _ => true
    getCodeRaced := Except.ok "0x608060"
    supportsERC721 := Except.ok false
    supportsERC1155 := Except.error "no supportsInterface"
    balanceOf := Except.ok 3
    ownerOf := Except.error "nonexistent token"
    getCodeAgain := Except.error "never reached" }

/-- A deployed contract where probes and fallback reads all fail and the
bytecode-scan `getCode` call then throws: the one unexpected exception the
steps 3-5 block can raise. -/
def swallowEnv : ValidateEnv :=
  { isAddress := fun _ => true
    getCodeRaced := Except.ok "0x608060"
    supportsERC721 := Except.ok false
    supportsERC1155 := Except.ok false
    balanceOf := Except.error "reverted"
    ownerOf := Except.error "reverted"
    getCodeAgain := Except.error "network down" }

/-- A contract whose `name` and `totalSupply` calls succeed while `symbol`
fails: exactly one of the three fails. -/
def partialInfoEnv : InfoEnv :=
  ⟨Except.ok (), Except.ok "Doodles", Except.error "missing symbol", Except.ok 10000⟩

/-- An address the connection cannot bind to: the contract-binding step
throws, though each read call would succeed. -/
def noBindEnv : InfoEnv :=
  ⟨Except.error "could not bind", Except.ok "N", Except.ok "S", Except.ok 1⟩

/-! The claims. -/

/-- C1: for every contract address string and every provider behaviour
(including calls that throw or time out, i.e. every assignment of
`Except.error` outcomes in the environments), each of `validateNFTContract`,
`getNFTContractInfo` and `detectMintFunction` returns a structured
`Except.ok` result — never an `Except.error` (a propagated exception). -/
theorem no_exception_escapes :
    (∀ (addr : String) (env : ValidateEnv),
       ∃ r : ValidationResult, (validateNFTContract addr env).1 = Except.ok r) ∧
    (∀ env : InfoEnv, ∃ i : ContractInfo, getNFTContractInfo env = Except.ok i) ∧
    (∀ env : DetectEnv, ∃ m : Option String, detectMintFunction env = Except.ok m) := by
  refine ⟨fun addr env => ?_, fun env => ?_, fun env => ?_⟩
  · unfold validateNFTContract
    rcases hb : validateBody addr env with ⟨r, t⟩
    cases r with
    | error e => exact ⟨_, rfl⟩
    | ok v => exact ⟨_, rfl⟩
  · unfold getNFTContractInfo
    cases h : env.bindContract with
    | error e => exact ⟨_, rfl⟩
    | ok v => exact ⟨_, rfl⟩
  · unfold detectMintFunction
    cases h : detectLoop env mintFunctions with
    | error e => exact ⟨_, rfl⟩
    | ok v => exact ⟨_, rfl⟩

/-- C2 (code bug): evaluated at a deployed contract that exposes none of the
six candidate signatures, `detectMintFunction` still returns
`function mint(uint256)` — not `null` as the spec claims — because each
`getFunction` lookup runs against the interface built locally from that very
candidate, so the first candidate always matches. -/
theorem detect_reports_mint_for_mintless_contract :
    detectMintFunction anyDeployedContractEnv =
      Except.ok (some "function mint(uint256)") ∧
    detectMintFunction anyDeployedContractEnv ≠ Except.ok none := by
  exact ⟨rfl, by decide⟩

/-- C3 counterexample: the claim "for every contract address and every
provider the result is the string `function mint(uint256)`" fails at an
address whose contract-binding constructor throws: there the outer catch
returns `null` instead. -/
theorem detect_null_when_binding_throws :
    detectMintFunction throwingBindEnv = Except.ok none ∧
    detectMintFunction throwingBindEnv ≠
      Except.ok (some "function mint(uint256)") := by
  exact ⟨rfl, by decide⟩

/-- C3 (amended): whenever the contract-binding constructor does not throw,
`detectMintFunction` returns `function mint(uint256)` on its first loop
iteration, regardless of the provider and of what the on-chain contract
actually exposes (neither occurs in the computation). -/
theorem detect_first_candidate_when_binding_ok (env : DetectEnv)
    (h : env.bindContract = Except.ok ()) :
    detectMintFunction env = Except.ok (some "function mint(uint256)") := by
  unfold detectMintFunction mintFunctions detectLoop
  rw [h]
  rfl

/-- C3 witness: the amended statement at a concrete environment. -/
theorem detect_first_candidate_when_binding_ok_witness :
    detectMintFunction anyDeployedContractEnv =
      Except.ok (some "function mint(uint256)") :=
  detect_first_candidate_when_binding_ok anyDeployedContractEnv rfl

/-- C4: whenever the steps 3-5 block of `validateNFTContract` raises an
unexpected exception (its computation ends in `Except.error`, which in this
code can only come from the bytecode-scan `getCode` call — probe and
fallback-call failures are locally converted to `false`), the exception is
swallowed and the function returns the permissive default
`{ valid: true }` with no reason, not an error result. -/
theorem validate_swallows_steps345_exception (addr code e : String)
    (env : ValidateEnv) (hne : addr ≠ "") (hA : env.isAddress addr = true)
    (hc : env.getCodeRaced = Except.ok code) (h0x : code ≠ "0x")
    (hErr : (validateSteps345 env [PCall.getCode]).1 = Except.error e) :
    (validateNFTContract addr env).1 = Except.ok ⟨true, none⟩ := by
  have hcond : ¬(addr = "" ∨ env.isAddress addr = false) := by simp [hne, hA]
  rcases h345 : validateSteps345 env [PCall.getCode] with ⟨r, t⟩
  rw [h345] at hErr
  simp only at hErr
  subst hErr
  simp [validateNFTContract, validateBody, hcond, hc, h0x, h345]

/-- C4 witness: concrete provider where probes answer false, fallback reads
revert, and the bytecode-scan call throws. -/
theorem validate_swallows_steps345_exception_witness :
    (validateNFTContract "0x0000000000000000000000000000000000000001"
        swallowEnv).1 = Except.ok ⟨true, none⟩ :=
  validate_swallows_steps345_exception
    "0x0000000000000000000000000000000000000001" "0x608060" "network down"
    swallowEnv (by decide) rfl rfl (by decide) rfl

/-- C5: for every address string failing the format check (the empty string
included), `validateNFTContract` answers `{ valid: false }` with the
bad-format reason and its provider-call trace is empty: no network call is
issued, whatever the provider would have answered. -/
theorem validate_bad_format_no_network (addr : String) (env : ValidateEnv)
    (h : addr = "" ∨ env.isAddress addr = false) :
    validateNFTContract addr env =
      (Except.ok ⟨false, some "Invalid Ethereum address format"⟩, []) := by
  unfold validateNFTContract validateBody
  rw [if_pos h]

/-- C5 witness: the empty string, and a malformed address, against a
provider whose every call would fail. -/
theorem validate_bad_format_no_network_witness :
    validateNFTContract "" malformedEnv =
      (Except.ok ⟨false, some "Invalid Ethereum address format"⟩, []) ∧
    validateNFTContract "not-an-address" malformedEnv =
      (Except.ok ⟨false, some "Invalid Ethereum address format"⟩, []) :=
  ⟨validate_bad_format_no_network "" malformedEnv (Or.inl rfl),
   validate_bad_format_no_network "not-an-address" malformedEnv (Or.inr rfl)⟩

/-- C6: for every well-formed address whose (raced) bytecode query succeeds
with the empty bytecode `0x`, `validateNFTContract` answers
`{ valid: false }` with the not-deployed reason, and its trace shows the
single `getCode` call: no interface probe and no fallback call is issued. -/
theorem validate_empty_bytecode_not_deployed (addr : String)
    (env : ValidateEnv) (hne : addr ≠ "") (hA : env.isAddress addr = true)
    (hc : env.getCodeRaced = Except.ok "0x") :
    validateNFTContract addr env =
      (Except.ok ⟨false, some "Contract not deployed at this address"⟩,
        [PCall.getCode]) := by
  have hcond : ¬(addr = "" ∨ env.isAddress addr = false) := by simp [hne, hA]
  simp [validateNFTContract, validateBody, hcond, hc]

/-- C6 witness. -/
theorem validate_empty_bytecode_not_deployed_witness :
    validateNFTContract "0x0000000000000000000000000000000000000001"
        notDeployedEnv =
      (Except.ok ⟨false, some "Contract not deployed at this address"⟩,
        [PCall.getCode]) :=
  validate_empty_bytecode_not_deployed
    "0x0000000000000000000000000000000000000001" notDeployedEnv
    (by decide) rfl rfl

/-- C7: for every well-formed, deployed address whose contract answers
`true` to the ERC721 (0x80ac58cd) or the ERC1155 (0xd9b67a26)
`supportsInterface` probe, `validateNFTContract` answers `{ valid: true }`;
the other probe's outcome is arbitrary — in particular a probe that itself
fails is treated as interface-not-supported, never as a hard error — and no
fallback call is issued (the trace ends at the two probes). -/
theorem validate_interface_probe_success (addr code : String)
    (env : ValidateEnv) (hne : addr ≠ "") (hA : env.isAddress addr = true)
    (hc : env.getCodeRaced = Except.ok code) (h0x : code ≠ "0x")
    (hp : env.supportsERC721 = Except.ok true ∨
      env.supportsERC1155 = Except.ok true) :
    validateNFTContract addr env =
      (Except.ok ⟨true, none⟩,
        [PCall.getCode, PCall.supportsERC721, PCall.supportsERC1155]) := by
  have hcond : ¬(addr = "" ∨ env.isAddress addr = false) := by simp [hne, hA]
  rcases hp with hp | hp <;>
    simp [validateNFTContract, validateBody, validateSteps345, catchFalse,
      hcond, hc, h0x, hp]

/-- C7 witness: the ERC721 probe answers true while the ERC1155 probe
itself fails. -/
theorem validate_interface_probe_success_witness :
    validateNFTContract "0x0000000000000000000000000000000000000001"
        probeTrueEnv =
      (Except.ok ⟨true, none⟩,
        [PCall.getCode, PCall.supportsERC721, PCall.supportsERC1155]) :=
  validate_interface_probe_success
    "0x0000000000000000000000000000000000000001" "0x608060" probeTrueEnv
    (by decide) rfl rfl (by decide) (Or.inl rfl)

/-- C8: for every well-formed, deployed address whose contract supports
neither probe (each probe answers `false` or itself fails, which the code's
`.catch` converts to `false`) but whose `balanceOf` or `ownerOf` call with
placeholder arguments succeeds — whatever value it returns —
`validateNFTContract` answers `{ valid: true }`. -/
theorem validate_fallback_call_success (addr code : String)
    (env : ValidateEnv) (hne : addr ≠ "") (hA : env.isAddress addr = true)
    (hc : env.getCodeRaced = Except.ok code) (h0x : code ≠ "0x")
    (h721 : catchFalse env.supportsERC721 = false)
    (h1155 : catchFalse env.supportsERC1155 = false)
    (hcall : thenTrueCatchFalse env.balanceOf = true ∨
      thenTrueCatchFalse env.ownerOf = true) :
    validateNFTContract addr env =
      (Except.ok ⟨true, none⟩,
        [PCall.getCode, PCall.supportsERC721, PCall.supportsERC1155,
          PCall.balanceOf, PCall.ownerOf]) := by
  have hcond : ¬(addr = "" ∨ env.isAddress addr = false) := by simp [hne, hA]
  rcases hcall with hcall | hcall <;>
    simp [validateNFTContract, validateBody, validateSteps345, hcond, hc,
      h0x, h721, h1155, hcall]

/-- C8 witness: probes answer false / fail, `balanceOf` succeeds (with an
arbitrary value, here 3). -/
theorem validate_fallback_call_success_witness :
    validateNFTContract "0x0000000000000000000000000000000000000001"
        fallbackEnv =
      (Except.ok ⟨true, none⟩,
        [PCall.getCode, PCall.supportsERC721, PCall.supportsERC1155,
          PCall.balanceOf, PCall.ownerOf]) :=
  validate_fallback_call_success
    "0x0000000000000000000000000000000000000001" "0x608060" fallbackEnv
    (by decide) rfl rfl (by decide) rfl rfl (Or.inl rfl)

/-- C9: when the contract binding succeeds, each field of
`getNFTContractInfo`'s result is exactly the settlement of its own call —
the decoded value if that call succeeded, absent if it failed — for every
combination of the three outcomes; one call's failure cannot influence the
other two fields, so a single failed call yields a three-field record with
exactly that field absent. -/
theorem info_fields_independent (env : InfoEnv)
    (h : env.bindContract = Except.ok ()) :
    getNFTContractInfo env =
      Except.ok
        ⟨settleValue env.nameCall, settleValue env.symbolCall,
          settleValue env.totalSupplyCall⟩ := by
  unfold getNFTContractInfo
  rw [h]

/-- C9 witness: `symbol` alone fails; the result is the matching record
with only that field absent. -/
theorem info_fields_independent_witness :
    getNFTContractInfo partialInfoEnv =
      Except.ok ⟨some "Doodles", none, some 10000⟩ :=
  info_fields_independent partialInfoEnv rfl

/-- C10: if the contract-binding step of `getNFTContractInfo` throws, the
function returns the entirely empty record — all three fields absent —
regardless of what the three read calls would have answered, and never an
error. -/
theorem info_empty_when_binding_throws (env : InfoEnv) (e : String)
    (h : env.bindContract = Except.error e) :
    getNFTContractInfo env = Except.ok ⟨none, none, none⟩ := by
  unfold getNFTContractInfo
  rw [h]

/-- C10 witness: binding fails even though every read call would have
succeeded. -/
theorem info_empty_when_binding_throws_witness :
    getNFTContractInfo noBindEnv = Except.ok ⟨none, none, none⟩ :=
  info_empty_when_binding_throws noBindEnv "could not bind" rfl

end ContractUtils
